import Mathlib

/-!
Verification of the Dixi vision core: gesture classification and spatial
calibration. The definitions below are a shallow embedding of
src/packages/vision/main.py, src/packages/vision/unified_tracking.py and
src/packages/vision/projection_calibration.py. Machine floats are embedded as
exact rationals; every comparison of square roots in the source is embedded as
the equivalent comparison of squares (both sides are nonnegative, so the
order is preserved). Timestamps are integers (milliseconds), as in the source.
-/

namespace Dixi

/-- Position sample kept in the motion/gesture history deques: normalized
x and y plus a millisecond timestamp (source: the dicts appended in
main.py `_analyze_gesture` and `unified_tracking.py`). -/
structure Pos where
  x : ℚ
  y : ℚ
  t : ℤ
deriving DecidableEq, Repr

/-- Python `collections.deque(maxlen)` append: add the new element on the
right and, when the buffer then exceeds the capacity, evict the oldest
(leftmost) entries. Natural subtraction makes the drop a no-op while the
buffer is within capacity. -/
def dequeAppend (maxlen : Nat) (buf : List α) (x : α) : List α :=
  let b := buf ++ [x]
  b.drop (b.length - maxlen)

/-- Capacity of `gesture_history` (main.py line 64: `deque(maxlen=30)`). -/
def gestureHistoryMaxlen : Nat := 30

/-- Capacity of `motion_history` (main.py line 65: `deque(maxlen=50)`). -/
def motionHistoryMaxlen : Nat := 50

/-- Capacity of `two_hand_distance_history` (main.py line 66:
`deque(maxlen=20)`). -/
def twoHandDistanceMaxlen : Nat := 20

/-- Capacity of each per-hand entry of `hand_position_history`
(unified_tracking.py lines 97-100: `deque(maxlen=15)`). -/
def handPositionMaxlen : Nat := 15

/-! ## Position smoother (projection_calibration.py, `PositionSmoother`) -/

/-- State of `PositionSmoother`: the short history deque (maxlen 5, written
but never read by `smooth`) and the last smoothed point. -/
structure SmootherState where
  history : List (ℚ × ℚ)
  lastSmoothed : Option (ℚ × ℚ)
deriving DecidableEq, Repr

/-- Smoothing factor `alpha` (constructor default 0.3, and the value used by
`ProjectionCalibration`). -/
def smootherAlpha : ℚ := 3/10

/-- `OUTLIER_DISTANCE_THRESHOLD = 0.3` (projection_calibration.py line 21). -/
def outlierDistanceThreshold : ℚ := 3/10

/-- Freshly constructed / reset smoother state. -/
def freshSmoother : SmootherState := { history := [], lastSmoothed := none }

/-- `PositionSmoother.smooth` (projection_calibration.py lines 40-75).
The source compares `sqrt((x-lx)^2 + (y-ly)^2) > 0.3`; both sides are
nonnegative, so it is embedded as the comparison of squares. -/
def PositionSmoother.smooth (s : SmootherState) (x y : ℚ) :
    (ℚ × ℚ) × SmootherState :=
  let hist := dequeAppend 5 s.history (x, y)
  match s.lastSmoothed with
  | none => ((x, y), { history := hist, lastSmoothed := some (x, y) })
  | some (lx, ly) =>
    if (x - lx)^2 + (y - ly)^2 > outlierDistanceThreshold^2 then
      ((lx, ly), { history := hist, lastSmoothed := some (lx, ly) })
    else
      let sx := smootherAlpha * x + (1 - smootherAlpha) * lx
      let sy := smootherAlpha * y + (1 - smootherAlpha) * ly
      ((sx, sy), { history := hist, lastSmoothed := some (sx, sy) })

/-! ## Push gate (main.py, `_push_gesture_to_backend`) -/

/-- Default push cooldown `push_cooldown_ms = 200` (main.py line 71). -/
def pushCooldownMs : ℤ := 200

/-- `gesture_changed` subcondition of `_push_gesture_to_backend` (main.py
lines 776-779): the last pushed gesture is absent or its type differs. -/
def gestureChanged (lastPushedType : Option String) (gtype : String) : Bool :=
  lastPushedType.isNone || lastPushedType != some gtype

/-- Emission decision of `_push_gesture_to_backend` (main.py line 783):
`gesture_changed or (cooldown_expired and is_wave) or (cooldown_expired and
type != 'unknown')`. -/
def shouldPush (lastPushedType : Option String) (lastPushTime : ℤ)
    (cooldownMs : ℤ) (gtype : String) (now : ℤ) : Bool :=
  let changed := gestureChanged lastPushedType gtype
  let cooldownExpired : Bool := decide (now - lastPushTime ≥ cooldownMs)
  let isWave : Bool := gtype == "wave"
  changed || (cooldownExpired && isWave) || (cooldownExpired && gtype != "unknown")

/-- Emission rule written from the spec's words (section 4.4 and the code's
own comment block at main.py lines 771-774): emit when the label differs from
the last emitted label, OR the cooldown has elapsed, OR the label is the
always-emit kind (wave), with unknown labels still eligible for
cooldown-based re-emission. Kept for comparison against `shouldPush`. -/
def specPushGateEmit (lastPushedType : Option String) (lastPushTime : ℤ)
    (cooldownMs : ℤ) (gtype : String) (now : ℤ) : Bool :=
  gestureChanged lastPushedType gtype
    || decide (now - lastPushTime ≥ cooldownMs)
    || gtype == "wave"

/-! ## Swipe detection (unified_tracking.py, `_detect_swipe`) -/

/-- Net x displacement between the oldest and the newest buffered sample. -/
def swipeDx (hist : List Pos) : ℚ :=
  (hist.getLastD ⟨0, 0, 0⟩).x - (hist.headD ⟨0, 0, 0⟩).x

/-- Net y displacement between the oldest and the newest buffered sample. -/
def swipeDy (hist : List Pos) : ℚ :=
  (hist.getLastD ⟨0, 0, 0⟩).y - (hist.headD ⟨0, 0, 0⟩).y

/-- Elapsed time in seconds between the oldest and the newest sample. -/
def swipeDt (hist : List Pos) : ℚ :=
  (((hist.getLastD ⟨0, 0, 0⟩).t - (hist.headD ⟨0, 0, 0⟩).t : ℤ) : ℚ) / 1000

/-- `_detect_swipe` (unified_tracking.py lines 490-517). The velocity test
`sqrt(dx^2 + dy^2) / dt < 0.3` is embedded as the equivalent comparison of
squares (`dt > 0` holds on that branch since `dt ≥ 0.1`). -/
def detectSwipe (hist : List Pos) : Option String :=
  if hist.length < 8 then none
  else if swipeDt hist < 1/10 then none
  else if swipeDx hist ^ 2 + swipeDy hist ^ 2 < (3/10 * swipeDt hist)^2 then none
  else if |swipeDx hist| > |swipeDy hist| * (3/2) then
    if swipeDx hist > 1/10 then some "swipe_right"
    else if swipeDx hist < -(1/10) then some "swipe_left"
    else none
  else none

/-- Swipe rule written from the spec's words (section 4.2): same oldest vs.
newest comparison and thresholds, but with the vertical axis handled
symmetrically to the horizontal one, as the spec requires. Kept for
comparison against `detectSwipe`. -/
def specSwipeDetect (hist : List Pos) : Option String :=
  if hist.length < 8 then none
  else if swipeDt hist < 1/10 then none
  else if swipeDx hist ^ 2 + swipeDy hist ^ 2 < (3/10 * swipeDt hist)^2 then none
  else if |swipeDx hist| ≥ |swipeDy hist| * (3/2) then
    if swipeDx hist ≥ 1/10 then some "swipe_right"
    else if swipeDx hist ≤ -(1/10) then some "swipe_left"
    else none
  else if |swipeDy hist| ≥ |swipeDx hist| * (3/2) then
    if swipeDy hist ≥ 1/10 then some "swipe_down"
    else if swipeDy hist ≤ -(1/10) then some "swipe_up"
    else none
  else none

/-! ## Feature extraction (main.py, `_detect_finger_states`) -/

/-- Landmark point: normalized camera-space coordinates. -/
structure LM where
  x : ℚ
  y : ℚ
  z : ℚ
deriving DecidableEq, Repr

/-- Hand pose sample: the 21 MediaPipe hand landmarks, in order. -/
abbrev Hand := List LM

/-- Landmark access `hand_landmarks[i]`. Callers pass complete 21-point
hands (a short list would raise IndexError in the source). -/
def lmAt (h : Hand) (i : Nat) : LM := h.getD i ⟨0, 0, 0⟩

/-- Finger extension flags (a `Finger State Set`). -/
structure FingerStates where
  thumb : Bool
  index : Bool
  middle : Bool
  ring : Bool
  pinky : Bool
deriving DecidableEq, Repr

/-- `_detect_finger_states` (main.py lines 265-295): each non-thumb finger is
extended when its tip y is above (less than) its PIP joint y; the thumb uses
horizontal displacement relative to the wrist and its IP joint. -/
def detectFingerStates (h : Hand) : FingerStates :=
  let wrist := lmAt h 0
  let thumbTip := lmAt h 4
  let thumbIp := lmAt h 3
  { thumb := if thumbTip.x > wrist.x then decide (thumbTip.x > thumbIp.x)
             else decide (thumbTip.x < thumbIp.x)
    index := decide ((lmAt h 8).y < (lmAt h 6).y)
    middle := decide ((lmAt h 12).y < (lmAt h 10).y)
    ring := decide ((lmAt h 16).y < (lmAt h 14).y)
    pinky := decide ((lmAt h 20).y < (lmAt h 18).y) }

/-- Number of extended fingers (`extended_count` in main.py). -/
def extendedCount (fs : FingerStates) : Nat :=
  (if fs.thumb then 1 else 0) + (if fs.index then 1 else 0) +
  (if fs.middle then 1 else 0) + (if fs.ring then 1 else 0) +
  (if fs.pinky then 1 else 0)

/-- Squared thumb-tip to index-tip distance. The source's
`thumb_index_dist` is the square root of this; every use compares it with a
nonnegative bound, so the embedding squares the bounds instead. -/
def thumbIndexDist2 (h : Hand) : ℚ :=
  ((lmAt h 4).x - (lmAt h 8).x)^2 + ((lmAt h 4).y - (lmAt h 8).y)^2

/-! ## Static gesture checks (main.py, `_check_gesture`) -/

/-- `_check_gesture` (main.py lines 574-624), with the `gesture_checks` dict
turned into a match on the gesture name; a name absent from the dict yields
False (`dict.get(name, False)`). `thumb_index_dist < 0.05` becomes
`dist2 < 1/400` on squares; `yaw` is the hand orientation angle in degrees
(computed by `_detect_hand_orientation` via arctan2, abstracted here as an
input since it is transcendental; only its range tests matter). -/
def gestureCheck (g : String) (h : Hand) (fs : FingerStates)
    (dist2 : ℚ) (yaw : ℚ) : Bool :=
  let thumbTip := lmAt h 4
  let indexTip := lmAt h 8
  let wrist := lmAt h 0
  match g with
  | "fist" => !fs.thumb && !fs.index && !fs.middle && !fs.ring && !fs.pinky
  | "open_palm" => extendedCount fs == 5
  | "thumbs_up" => fs.thumb && !fs.index && !fs.middle && !fs.ring && !fs.pinky
      && decide (thumbTip.y < wrist.y)
  | "thumbs_down" => fs.thumb && !fs.index && !fs.middle && !fs.ring && !fs.pinky
      && decide (thumbTip.y > wrist.y)
  | "peace" => fs.index && fs.middle && !fs.ring && !fs.pinky
  | "ok" => decide (dist2 < 1/400) && fs.middle && fs.ring && fs.pinky
  | "rock" => fs.index && fs.pinky && !fs.middle && !fs.ring
  | "spiderman" => !fs.middle && !fs.ring && fs.thumb && fs.index && fs.pinky
  | "gun" => fs.index && !fs.middle && !fs.ring && !fs.pinky
      && decide (thumbTip.y < indexTip.y)
  | "three" => fs.thumb && fs.index && fs.middle && !fs.ring && !fs.pinky
  | "four" => !fs.thumb && fs.index && fs.middle && fs.ring && fs.pinky
  | "five" => extendedCount fs == 5
  | "pinch" => decide (dist2 < 1/400)
  | "point" => fs.index && decide (indexTip.y < wrist.y - 1/10)
  | "point_up" => fs.index && !fs.middle && decide (indexTip.y < wrist.y - 3/20)
      && decide (-45 < yaw ∧ yaw < 45)
  | "point_down" => fs.index && !fs.middle && decide (indexTip.y < wrist.y - 3/20)
      && decide (yaw > 135 ∨ yaw < -135)
  | "point_left" => fs.index && !fs.middle && decide (indexTip.y < wrist.y - 3/20)
      && decide (-135 < yaw ∧ yaw < -45)
  | "point_right" => fs.index && !fs.middle && decide (indexTip.y < wrist.y - 3/20)
      && decide (45 < yaw ∧ yaw < 135)
  | _ => false

/-- `GESTURE_PRIORITY['high']` (main.py line 81). -/
def highList : List String := ["pinch", "ok", "peace", "double_tap"]

/-- `GESTURE_PRIORITY['medium']` (main.py lines 82-84). -/
def mediumList : List String :=
  ["point_up", "point_down", "point_left", "point_right",
   "swipe_left", "swipe_right", "swipe_up", "swipe_down",
   "zoom_in", "zoom_out", "grab", "release"]

/-- `GESTURE_PRIORITY['low']` (main.py lines 85-86). -/
def lowList : List String :=
  ["fist", "open_palm", "thumbs_up", "thumbs_down",
   "three", "four", "five", "wave", "rock", "spiderman", "gun"]

/-- First-match scan of a priority list, continuing past the names in
`skip` (the source's `continue` on specially handled gestures). -/
def firstMatchSkip (skip : List String) (check : String → Bool) :
    List String → Option String
  | [] => none
  | g :: rest =>
    if skip.contains g then firstMatchSkip skip check rest
    else if check g then some g else firstMatchSkip skip check rest

/-! ## Wave detection (main.py, `_detect_wave`) -/

/-- Per-axis velocity sequence: one entry per consecutive pair of samples
with positive time delta (main.py lines 716-722). -/
def velocityList (ps : List Pos) (f : Pos → ℚ) : List ℚ :=
  (ps.zip ps.tail).filterMap (fun pr =>
    let dt : ℚ := ((pr.2.t - pr.1.t : ℤ) : ℚ) / 1000
    if dt > 0 then some ((f pr.2 - f pr.1) / dt) else none)

/-- Count of velocity sign changes (main.py lines 728-731). -/
def signFlips (vs : List ℚ) : Nat :=
  (vs.zip vs.tail).countP (fun p => decide ((p.2 > 0) ≠ (p.1 > 0)))

/-- Maximum of a Python list (nonempty at every call site). -/
def listMax (l : List ℚ) : ℚ :=
  match l with
  | [] => 0
  | a :: rest => rest.foldl max a

/-- Minimum of a Python list (nonempty at every call site). -/
def listMin (l : List ℚ) : ℚ :=
  match l with
  | [] => 0
  | a :: rest => rest.foldl min a

/-- `_detect_wave` (main.py lines 697-744), over the already-updated
gesture history. -/
def detectWave (gestureHistory : List Pos) : Bool :=
  if gestureHistory.length < 10 then false else
  let recent := gestureHistory.drop (gestureHistory.length - 20)
  if recent.length < 10 then false else
  let xvels := velocityList recent (fun p => p.x)
  let yvels := velocityList recent (fun p => p.y)
  if xvels.length < 5 then false else
  let xdc := signFlips xvels
  let ydc := signFlips yvels
  let xs := recent.map (fun p => p.x)
  let ys := recent.map (fun p => p.y)
  let xRange := listMax xs - listMin xs
  let yRange := listMax ys - listMin ys
  (decide (xdc ≥ 3) && decide (xRange > 1/10) && decide (xRange > yRange * (3/2)))
    || (decide (ydc ≥ 3) && decide (yRange > 1/10) && decide (yRange > xRange * (3/2)))

/-! ## Gesture resolver (main.py, `_analyze_gesture`) -/

/-- Cross-frame classifier state of `GestureRecognitionService`: the pinch
timing/distance memory, the previous extended-finger count, the last
classification, the hold-time map and the two history deques.
`lastPinchDist2` stores the square of the source's `last_pinch_distance`;
all its uses compare nonnegative quantities, so the order is preserved. -/
structure GRState where
  lastPinchTime : Option ℤ
  lastPinchDist2 : Option ℚ
  prevFingerCount : Option Nat
  lastGestureType : Option String
  holdTime : List (String × Nat)
  gestureHistory : List Pos
  motionHistory : List Pos
deriving DecidableEq, Repr

/-- Initial classifier state (`__init__`, main.py lines 64-77). -/
def initGRState : GRState :=
  { lastPinchTime := none, lastPinchDist2 := none, prevFingerCount := none,
    lastGestureType := none, holdTime := [], gestureHistory := [],
    motionHistory := [] }

/-- The only pattern strings `_detect_motion_pattern` (main.py lines
325-409) ever assigns; the trigonometric scoring that picks among them is
abstracted, so the resolver takes the tier-1 outcome as an input constrained
to this set. Fewer than 10 samples of motion history always yield "none". -/
def motionPatternOutcomes : List String :=
  ["none", "figure_eight", "rotate_clockwise", "rotate_counterclockwise",
   "swipe_left", "swipe_right", "swipe_up", "swipe_down", "shake"]

/-- Stateful double-tap handling opening tier 2 (main.py lines 467-483):
on a pinching frame, a remembered pinch strictly between 200 and 800 ms ago
classifies as double_tap and clears the candidate; otherwise the frame
becomes the new candidate. Returns the detection (if any) together with the
new `last_pinch_time` and `last_pinch_distance` values. -/
def doubleTapStep (lastPinchTime : Option ℤ) (lastPinchDist2 : Option ℚ)
    (dist2 : ℚ) (t : ℤ) : Option (String × ℚ) × Option ℤ × Option ℚ :=
  if dist2 < 1/400 then
    match lastPinchTime with
    | some lt =>
      if 200 < t - lt ∧ t - lt < 800 then
        (some ("double_tap", 17/20), none, lastPinchDist2)
      else (none, some t, some dist2)
    | none => (none, some t, some dist2)
  else (none, lastPinchTime, lastPinchDist2)

/-- Tier 2: double-tap handling, then the ordered high-priority checks with
double_tap skipped (main.py lines 466-494). -/
def tier2 (st : GRState) (h : Hand) (fs : FingerStates) (dist2 : ℚ)
    (t : ℤ) (yaw : ℚ) : Option (String × ℚ) × GRState :=
  let dt := doubleTapStep st.lastPinchTime st.lastPinchDist2 dist2 t
  let st1 := { st with lastPinchTime := dt.2.1, lastPinchDist2 := dt.2.2 }
  match dt.1 with
  | some r => (some r, st1)
  | none =>
    match firstMatchSkip ["double_tap"] (fun g => gestureCheck g h fs dist2 yaw)
        highList with
    | some g => (some (g, 9/10), st1)
    | none => (none, st1)

/-- Zoom handling opening tier 3 (main.py lines 498-508): on a pinching
frame with a remembered pinch distance, a relative change past the 1.2 or
0.8 factor classifies zoom; the remembered distance is refreshed either
way. The source compares square roots with factors 1.2 and 0.8, embedded on
squares as 36/25 and 16/25. -/
def zoomStep (lastPinchDist2 : Option ℚ) (dist2 : ℚ) :
    Option (String × ℚ) × Option ℚ :=
  if dist2 < 1/400 then
    match lastPinchDist2 with
    | some lpd =>
      (if dist2 > lpd * (36/25) then some ("zoom_in", 4/5)
       else if dist2 < lpd * (16/25) then some ("zoom_out", 4/5)
       else none, some dist2)
    | none => (none, none)
  else (none, lastPinchDist2)

/-- Grab/release handling of tier 3 (main.py lines 511-522): a drop or rise
of more than one extended finger relative to the previous frame; the count
memory is refreshed either way. -/
def grabStep (prev : Option Nat) (cur : Nat) :
    Option (String × ℚ) × Option Nat :=
  (match prev with
   | some p =>
     if p > cur + 1 then some ("grab", 4/5)
     else if p + 1 < cur then some ("release", 4/5)
     else none
   | none => none, some cur)

/-- Tier 3: zoom, then grab/release, then the ordered medium-priority
checks with the specially handled names skipped (main.py lines 497-533). -/
def tier3 (st : GRState) (h : Hand) (fs : FingerStates) (dist2 : ℚ)
    (yaw : ℚ) : Option (String × ℚ) × GRState :=
  let z := zoomStep st.lastPinchDist2 dist2
  let st1 := { st with lastPinchDist2 := z.2 }
  match z.1 with
  | some r => (some r, st1)
  | none =>
    let gr := grabStep st1.prevFingerCount (extendedCount fs)
    let st2 := { st1 with prevFingerCount := gr.2 }
    match gr.1 with
    | some r => (some r, st2)
    | none =>
      match firstMatchSkip ["zoom_in", "zoom_out", "grab", "release"]
          (fun g => gestureCheck g h fs dist2 yaw) mediumList with
      | some g => (some (g, 17/20), st2)
      | none => (none, st2)

/-- Tier 4: wave from motion history, then the ordered low-priority checks
(main.py lines 536-548). -/
def tier4 (st : GRState) (h : Hand) (fs : FingerStates) (dist2 : ℚ)
    (yaw : ℚ) : Option (String × ℚ) :=
  if detectWave st.gestureHistory then some ("wave", 17/20)
  else
    match firstMatchSkip [] (fun g => gestureCheck g h fs dist2 yaw) lowList with
    | some g => some (g, 17/20)
    | none => none

/-- Hold-time bump `gesture_hold_time[t] = gesture_hold_time.get(t, 0) + 1`
(main.py line 552). -/
def bumpHold (m : List (String × Nat)) (g : String) : List (String × Nat) :=
  match m.lookup g with
  | some n => m.map (fun p => if p.1 = g then (g, n + 1) else p)
  | none => m ++ [(g, 1)]

/-- Classification result: the resolved gesture label, its confidence and
the updated classifier state. -/
structure ClassifyResult where
  gtype : String
  confidence : ℚ
  state : GRState
deriving DecidableEq, Repr

/-- History update at the top of `_analyze_gesture` (main.py lines
427-438): the wrist position of the current frame is appended to both the
gesture history and the motion history. -/
def appendHistories (st : GRState) (h : Hand) (t : ℤ) : GRState :=
  let wrist := lmAt h 0
  let pos : Pos := { x := wrist.x, y := wrist.y, t := t }
  { st with
    gestureHistory := dequeAppend gestureHistoryMaxlen st.gestureHistory pos,
    motionHistory := dequeAppend motionHistoryMaxlen st.motionHistory pos }

/-- Four-tier priority resolution of `_analyze_gesture` (main.py lines
456-548): a non-"none" motion pattern wins outright, then tiers 2-4 run in
order, first detection winning. Returns the detection (none when no tier
matched) and the updated classifier state. -/
def resolveStep (st0 : GRState) (h : Hand) (fs : FingerStates) (d2 : ℚ)
    (t : ℤ) (motionPat : String) (yaw : ℚ) :
    Option (String × ℚ) × GRState :=
  if motionPat ≠ "none" then (some (motionPat, 17/20), st0)
  else
    match tier2 st0 h fs d2 t yaw with
    | (some r, st1) => (some r, st1)
    | (none, st1) =>
      match tier3 st1 h fs d2 yaw with
      | (some r, st2) => (some r, st2)
      | (none, st2) =>
        match tier4 st2 h fs d2 yaw with
        | some r => (some r, st2)
        | none => (none, st2)

/-- `_analyze_gesture` (main.py lines 411-572): append the wrist position
to both histories, then resolve through the four priority tiers, first
match winning; no match yields "unknown" at confidence 0.5; finally update
the hold-time map. `motionPat` is the tier-1 motion pattern (see
`motionPatternOutcomes`) and `yaw` the orientation angle in degrees. -/
def classify (st : GRState) (h : Hand) (t : ℤ) (motionPat : String)
    (yaw : ℚ) : ClassifyResult :=
  let st0 := appendHistories st h t
  let step := resolveStep st0 h (detectFingerStates h) (thumbIndexDist2 h)
    t motionPat yaw
  let gtype := (step.1.map Prod.fst).getD "unknown"
  let conf := (step.1.map Prod.snd).getD (1/2)
  let stF := step.2
  let stOut : GRState :=
    if st.lastGestureType = some gtype then
      { stF with holdTime := bumpHold stF.holdTime gtype }
    else
      { stF with holdTime := [(gtype, 1)], lastGestureType := some gtype }
  { gtype := gtype, confidence := conf, state := stOut }

/-! ## Calibration engine (projection_calibration.py, `ProjectionCalibration`) -/

/-- Corner point. -/
structure Pt where
  x : ℚ
  y : ℚ
deriving DecidableEq, Repr

/-- 3x3 homography matrix (row-major entries). -/
structure M3 where
  m00 : ℚ
  m01 : ℚ
  m02 : ℚ
  m10 : ℚ
  m11 : ℚ
  m12 : ℚ
  m20 : ℚ
  m21 : ℚ
  m22 : ℚ
deriving DecidableEq, Repr

/-- Length-9 solution vector of the DLT system (the source's `Vh[-1]`). -/
structure HVec where
  h1 : ℚ
  h2 : ℚ
  h3 : ℚ
  h4 : ℚ
  h5 : ℚ
  h6 : ℚ
  h7 : ℚ
  h8 : ℚ
  h9 : ℚ
deriving DecidableEq, Repr

/-- The SVD null-vector computation `np.linalg.svd(A)` followed by taking
the last right singular vector. numpy is external to the repository, so the
numerical solver is a parameter of the machine; everything around it is
embedded exactly. -/
abbrev Solver := List (List ℚ) → HVec

/-- Persisted calibration file contents (`_save_calibration`,
projection_calibration.py lines 140-154). -/
structure SavedCalib where
  calibrated : Bool
  matrix : Option M3
  cameraCorners : List Pt
  projectorCorners : List Pt
  createdAt : Option ℤ
deriving DecidableEq, Repr

/-- State owned by `ProjectionCalibration`: the calibration fields, the
persisted file (none when absent) and the position smoother. -/
structure Engine where
  calibrated : Bool
  homography : Option M3
  cameraCorners : Option (List Pt)
  projectorCorners : Option (List Pt)
  createdAt : Option ℤ
  savedFile : Option SavedCalib
  smoother : SmootherState
deriving DecidableEq, Repr

/-- Result dict of `calibrate`: success flag and the error message of a
structured failure. -/
structure CalibResult where
  success : Bool
  errorMsg : Option String
deriving DecidableEq, Repr

/-- Default projector corners (projection_calibration.py line 190). -/
def unitSquare : List Pt := [⟨0, 0⟩, ⟨1, 0⟩, ⟨1, 1⟩, ⟨0, 1⟩]

/-- Numerical tolerance 1e-10 used for the homogeneous divisor and the
normalization entry. -/
def epsTiny : ℚ := 1/10000000000

/-- `np.allclose(p, q, atol=0.01)` on 2-point rows, with numpy's default
relative tolerance rtol = 1e-5: each component satisfies
abs(a - b) <= atol + rtol * abs(b). -/
def ptAllclose (a b : Pt) : Bool :=
  decide (|a.x - b.x| ≤ 1/100 + |b.x| / 100000)
    && decide (|a.y - b.y| ≤ 1/100 + |b.y| / 100000)

/-- `_validate_points` (projection_calibration.py lines 242-270): reject a
pair of near-coincident corners, then reject four collinear corners via two
2-D cross products from the first vertex. -/
def validatePoints (pts : List Pt) : Bool :=
  let p := fun i => pts.getD i ⟨0, 0⟩
  let overlapping :=
    ptAllclose (p 0) (p 1) || ptAllclose (p 0) (p 2) || ptAllclose (p 0) (p 3)
      || ptAllclose (p 1) (p 2) || ptAllclose (p 1) (p 3)
      || ptAllclose (p 2) (p 3)
  if overlapping then false
  else
    let v1 : Pt := ⟨(p 1).x - (p 0).x, (p 1).y - (p 0).y⟩
    let v2 : Pt := ⟨(p 2).x - (p 0).x, (p 2).y - (p 0).y⟩
    let v3 : Pt := ⟨(p 3).x - (p 0).x, (p 3).y - (p 0).y⟩
    let cross1 := v1.x * v2.y - v1.y * v2.x
    let cross2 := v1.x * v3.y - v1.y * v3.x
    !(decide (|cross1| < 1/10000) && decide (|cross2| < 1/10000))

/-- Rows of the 8x9 DLT system A (projection_calibration.py lines 293-300). -/
def buildA (src dst : List Pt) : List (List ℚ) :=
  ((List.range 4).map (fun i =>
    let s := src.getD i ⟨0, 0⟩
    let d := dst.getD i ⟨0, 0⟩
    [[s.x, s.y, 1, 0, 0, 0, -d.x * s.x, -d.x * s.y, -d.x],
     [0, 0, 0, s.x, s.y, 1, -d.y * s.x, -d.y * s.y, -d.y]])).flatten

/-- `Vh[-1].reshape(3, 3)`. -/
def reshape3 (v : HVec) : M3 :=
  ⟨v.h1, v.h2, v.h3, v.h4, v.h5, v.h6, v.h7, v.h8, v.h9⟩

/-- Scalar multiplication of the matrix entries. -/
def scaleM3 (H : M3) (c : ℚ) : M3 :=
  ⟨H.m00 * c, H.m01 * c, H.m02 * c, H.m10 * c, H.m11 * c, H.m12 * c,
   H.m20 * c, H.m21 * c, H.m22 * c⟩

/-- `_compute_homography` (projection_calibration.py lines 272-314): with
fewer than 4 points on either side, indexing `pts[i]` for i in range(4)
raises IndexError, which the function's except-clause turns into None;
otherwise the DLT system is solved and the matrix is divided by its
bottom-right entry when that entry exceeds 1e-10 in absolute value — an
entry at most 1e-10 is returned unnormalized (still a success). -/
def computeHomography (solver : Solver) (src dst : List Pt) : Option M3 :=
  if src.length < 4 ∨ dst.length < 4 then none
  else
    let H := reshape3 (solver (buildA src dst))
    some (if |H.m22| > epsTiny then scaleM3 H (1 / H.m22) else H)

/-- `calibrate` (projection_calibration.py lines 156-240). The source
assigns `self.homography_matrix = self._compute_homography(...)` before
testing the result for None, so the computation-failure path leaves the
stored matrix cleared while every other field keeps its old value. On
success all fields are set, the smoother is reset and the file is saved.
`now` stands for the wall-clock creation timestamp. -/
def calibrate (solver : Solver) (s : Engine) (cameraCorners : List Pt)
    (projectorCorners : Option (List Pt)) (now : ℤ) : CalibResult × Engine :=
  if cameraCorners.length ≠ 4 then
    ({ success := false, errorMsg := some "Expected 4 corners" }, s)
  else
    let projPts := projectorCorners.getD unitSquare
    if validatePoints cameraCorners = false then
      ({ success := false,
         errorMsg := some "Camera corner points are degenerate" }, s)
    else
      match computeHomography solver cameraCorners projPts with
      | none =>
        ({ success := false,
           errorMsg := some "Failed to compute homography matrix" },
         { s with homography := none })
      | some H =>
        let saved : SavedCalib :=
          { calibrated := true, matrix := some H,
            cameraCorners := cameraCorners, projectorCorners := projPts,
            createdAt := some now }
        ({ success := true, errorMsg := none },
         { calibrated := true, homography := some H,
           cameraCorners := some cameraCorners,
           projectorCorners := some projPts, createdAt := some now,
           savedFile := some saved, smoother := freshSmoother })

/-- `clear_calibration` (projection_calibration.py lines 450-464): reset
every field, reset the smoother and remove the file. -/
def clearCalibration (_s : Engine) : Engine :=
  { calibrated := false, homography := none, cameraCorners := none,
    projectorCorners := none, createdAt := none, savedFile := none,
    smoother := freshSmoother }

/-- `_load_calibration` (projection_calibration.py lines 122-138): when the
file exists and records a calibrated state with a matrix, adopt its fields;
otherwise leave the state alone. -/
def loadCalibration (s : Engine) : Engine :=
  match s.savedFile with
  | none => s
  | some d =>
    if d.calibrated = true ∧ d.matrix ≠ none then
      { s with
        homography := d.matrix, cameraCorners := some d.cameraCorners,
        projectorCorners := some d.projectorCorners, createdAt := d.createdAt,
        calibrated := true }
    else s

/-- Engine state before any operation, with an optional calibration file on
disk; construction runs `_load_calibration` (the source's `__init__`). -/
def freshEngine (file : Option SavedCalib) : Engine :=
  loadCalibration
    { calibrated := false, homography := none, cameraCorners := none,
      projectorCorners := none, createdAt := none, savedFile := file,
      smoother := freshSmoother }

/-- Mutating operations on the calibration state. -/
inductive CalibOp where
  | calib (cameraCorners : List Pt) (projectorCorners : Option (List Pt))
      (now : ℤ)
  | clear
  | load
deriving Repr

/-- One operation applied to the engine state. -/
def calibStep (solver : Solver) (s : Engine) (op : CalibOp) : Engine :=
  match op with
  | .calib c p n => (calibrate solver s c p n).2
  | .clear => clearCalibration s
  | .load => loadCalibration s

/-- A sequence of operations applied in order. -/
def runOps (solver : Solver) (s : Engine) (ops : List CalibOp) : Engine :=
  ops.foldl (calibStep solver) s

/-! ## Point transform (projection_calibration.py, `transform_point`) -/

/-- Clamp to the unit interval (projection_calibration.py lines 352-353). -/
def clamp01 (v : ℚ) : ℚ := max 0 (min 1 v)

/-- `transform_point` (projection_calibration.py lines 316-363): None when
uncalibrated or the matrix is absent; apply the homography in homogeneous
coordinates; None when the divisor is below 1e-10 in absolute value; clamp
to the unit square; optionally smooth. Returns the result together with the
engine (whose smoother may have advanced). -/
def transformPoint (s : Engine) (x y : ℚ) (applySmoothing : Bool) :
    Option (ℚ × ℚ) × Engine :=
  if s.calibrated = false then (none, s)
  else
    match s.homography with
    | none => (none, s)
    | some H =>
      let w := H.m20 * x + H.m21 * y + H.m22
      if |w| < epsTiny then (none, s)
      else
        let px := clamp01 ((H.m00 * x + H.m01 * y + H.m02) / w)
        let py := clamp01 ((H.m10 * x + H.m11 * y + H.m12) / w)
        if applySmoothing then
          let r := PositionSmoother.smooth s.smoother px py
          (some r.1, { s with smoother := r.2 })
        else (some (px, py), s)

/-- An engine without a usable calibration: the calibrated flag is down or
no homography matrix is stored (the spec's data-model invariant makes the
two coincide, so the spec's word "uncalibrated" is read as this
disjunction). -/
def uncalibrated (s : Engine) : Prop :=
  s.calibrated = false ∨ s.homography = none

instance (s : Engine) : Decidable (uncalibrated s) := by
  unfold uncalibrated; infer_instance

/-- The homogeneous divisor of the stored homography at (x, y) is
numerically ~0 (absolute value below 1e-10). -/
def divisorNearZero (s : Engine) (x y : ℚ) : Prop :=
  match s.homography with
  | none => False
  | some H => |H.m20 * x + H.m21 * y + H.m22| < epsTiny

instance (s : Engine) (x y : ℚ) : Decidable (divisorNearZero s x y) := by
  unfold divisorNearZero; exact match s.homography with
    | none => isFalse (fun h => h)
    | some _ => inferInstance

/-- Well-formedness of the smoother's memory: any remembered point lies in
the unit square. Holds initially (no memory) and is maintained by
`transform_point`, whose smoother inputs are clamped first. -/
def SmInv (s : SmootherState) : Prop :=
  ∀ p : ℚ × ℚ, s.lastSmoothed = some p →
    0 ≤ p.1 ∧ p.1 ≤ 1 ∧ 0 ≤ p.2 ∧ p.2 ≤ 1

/-- Every label tiers 2-4 can produce, plus the fallback "unknown"
(without "five", which is shadowed by the identical open_palm check, and
without zoom, which is shadowed by the tier-2 pinch check); used to state
which labels the resolver can actually return. -/
def staticResultLabels : List String :=
  ["unknown", "double_tap", "pinch", "ok", "peace", "grab", "release",
   "point_up", "point_down", "point_left", "point_right", "wave",
   "fist", "open_palm", "thumbs_up", "thumbs_down", "three", "four",
   "rock", "spiderman", "gun"]

/-! ## Concrete inputs used by the witnesses and counterexamples -/

/-- A sequence of n dummy position samples with distinct timestamps. -/
def posSeq (n : Nat) : List Pos :=
  (List.range n).map (fun i => ⟨0, 0, (i : ℤ)⟩)

/-- Eight samples moving right by 0.15 over 0.35 s: a horizontal swipe. -/
def rightSwipeHist : List Pos :=
  [⟨0, 0, 0⟩, ⟨0, 0, 50⟩, ⟨0, 0, 100⟩, ⟨0, 0, 150⟩,
   ⟨0, 0, 200⟩, ⟨0, 0, 250⟩, ⟨0, 0, 300⟩, ⟨3/20, 0, 350⟩]

/-- Eight samples moving down by 0.3 over 0.7 s: a vertical swipe per the
spec (elapsed ≥ 0.1 s, speed ≈ 0.43 ≥ 0.3, vertical dominates, |dy| ≥ 0.1). -/
def verticalSwipeHist : List Pos :=
  [⟨1/2, 0, 0⟩, ⟨1/2, 0, 100⟩, ⟨1/2, 0, 200⟩, ⟨1/2, 0, 300⟩,
   ⟨1/2, 0, 400⟩, ⟨1/2, 0, 500⟩, ⟨1/2, 0, 600⟩, ⟨1/2, 3/10, 700⟩]

/-- A 21-landmark hand with every landmark at the origin: thumb tip and
index tip coincide, so the frame is pinching and no finger is extended. -/
def pinchHand : Hand := List.replicate 21 ⟨0, 0, 0⟩

/-- Classifier state remembering an unpaired pinch at t = 0 ms. -/
def stWithCandidate : GRState := { initGRState with lastPinchTime := some 0 }

/-- A pinching hand whose thumb-index distance is 0.04 (squared 16/10000):
landmark 4 sits at x = 1/25, the rest at the origin. -/
def zoomSpecHand : Hand :=
  (List.range 21).map (fun i =>
    if i = 4 then ⟨1/25, 0, 0⟩ else ⟨0, 0, 0⟩)

/-- Classifier state remembering a pinch distance of 0.01 (squared
1/10000): together with `zoomSpecHand` the relative expansion is 4x, well
past the spec's +20 percent zoom-in rule. -/
def zoomSpecState : GRState :=
  { initGRState with lastPinchDist2 := some (1/10000) }

/-- A solver returning the identity homography's solution vector. Any
value works for the paths exercised here; this one keeps success paths
well-behaved (bottom-right entry 1). -/
def solverId : Solver := fun _ => ⟨1, 0, 0, 0, 1, 0, 0, 0, 1⟩

/-- The identity homography matrix. -/
def idM3 : M3 := ⟨1, 0, 0, 0, 1, 0, 0, 0, 1⟩

/-- Engine state right after a successful calibration of the unit square
onto the default projector corners. -/
def engAfterGood : Engine :=
  (calibrate solverId (freshEngine none) unitSquare none 0).2

/-- A projector corner list with only three corners: the source's DLT loop
indexes four, so the homography computation raises and returns None. -/
def threeCorners : List Pt := [⟨0, 0⟩, ⟨1, 0⟩, ⟨1, 1⟩]

/-- A second calibrate call on the already-calibrated engine, passing the
short projector corner list. -/
def calibClobber : CalibResult × Engine :=
  calibrate solverId engAfterGood unitSquare (some threeCorners) 1

/-- Camera corners with two exactly coincident points. -/
def coincidentCorners : List Pt := [⟨0, 0⟩, ⟨0, 0⟩, ⟨1, 1⟩, ⟨0, 1⟩]

/-- A persisted calibration file recording a calibrated state. -/
def calibFile : SavedCalib :=
  { calibrated := true, matrix := some idM3, cameraCorners := unitSquare,
    projectorCorners := unitSquare, createdAt := some 0 }

/-- A calibrated engine with the identity homography and a fresh smoother,
as produced by a successful unit-square calibration. -/
def calibEngine : Engine :=
  { calibrated := true, homography := some idM3, cameraCorners := none,
    projectorCorners := none, createdAt := none, savedFile := none,
    smoother := freshSmoother }

/-! # Theorems -/

/-! ## C1: push gate emission rule -/

/-- C1: the push gate does not implement the claimed rule. At the concrete
inputs below the claimed rule (also the code's own comment: emit on change,
or on elapsed cooldown, or always for wave) emits, but `shouldPush`
refuses: a repeated "unknown" is never re-emitted however much time has
passed, and a repeated "wave" inside the cooldown is not emitted. -/
theorem pushGate_rejects_claimed_emissions :
    shouldPush (some "unknown") 0 200 "unknown" 300 = false
      ∧ specPushGateEmit (some "unknown") 0 200 "unknown" 300 = true
      ∧ shouldPush (some "wave") 0 200 "wave" 50 = false
      ∧ specPushGateEmit (some "wave") 0 200 "wave" 50 = true := by
  decide

/-! ## C5: position smoother -/

/-- C5: the smoother's first call returns its input unchanged and makes it
the baseline; a later call whose Euclidean distance from the baseline
exceeds 0.3 (squares are compared, preserving the order) returns the
baseline unchanged without updating it; otherwise the call returns the
componentwise blend 0.3 * raw + 0.7 * previous and stores it as the new
baseline. -/
theorem smoother_first_outlier_blend (s : SmootherState) (x y : ℚ) :
    (s.lastSmoothed = none →
      (PositionSmoother.smooth s x y).1 = (x, y)
        ∧ (PositionSmoother.smooth s x y).2.lastSmoothed = some (x, y))
    ∧ (∀ p : ℚ × ℚ, s.lastSmoothed = some p →
        ((x - p.1)^2 + (y - p.2)^2 > (3/10)^2 →
          (PositionSmoother.smooth s x y).1 = p
            ∧ (PositionSmoother.smooth s x y).2.lastSmoothed = some p)
        ∧ ((x - p.1)^2 + (y - p.2)^2 ≤ (3/10)^2 →
          (PositionSmoother.smooth s x y).1
              = (3/10 * x + 7/10 * p.1, 3/10 * y + 7/10 * p.2)
            ∧ (PositionSmoother.smooth s x y).2.lastSmoothed
              = some (3/10 * x + 7/10 * p.1, 3/10 * y + 7/10 * p.2))) := by
  refine ⟨fun h0 => ?_, fun p hp => ⟨fun hout => ?_, fun hin => ?_⟩⟩
  · simp [PositionSmoother.smooth, h0]
  · obtain ⟨px, py⟩ := p
    simp [PositionSmoother.smooth, hp, outlierDistanceThreshold, hout]
  · obtain ⟨px, py⟩ := p
    simp only [PositionSmoother.smooth, hp]
    rw [if_neg (by rw [outlierDistanceThreshold]; exact not_lt.mpr hin)]
    norm_num [smootherAlpha]

/-- C5 witness: the first-call case evaluated at a fresh smoother and the
concrete input (1, 2). -/
theorem smoother_first_outlier_blend_witness :
    freshSmoother.lastSmoothed = none
      ∧ (PositionSmoother.smooth freshSmoother 1 2).1 = (1, 2)
      ∧ (PositionSmoother.smooth freshSmoother 1 2).2.lastSmoothed
        = some (1, 2) :=
  ⟨rfl, (smoother_first_outlier_blend freshSmoother 1 2).1 rfl⟩

/-! ## C8: bounded history buffers -/

/-- Helper: folding deque appends over a buffer already within capacity
keeps the most recent capacity-many elements. -/
theorem dequeAppend_foldl (m : Nat) (xs : List α) :
    ∀ b : List α, b.length ≤ m →
      List.foldl (dequeAppend m) b xs
        = (b ++ xs).drop (b.length + xs.length - m) := by
  induction xs with
  | nil =>
    intro b hb
    simp [Nat.sub_eq_zero_of_le hb]
  | cons x rest ih =>
    intro b hb
    have hd : dequeAppend m b x = (b ++ [x]).drop (b.length + 1 - m) := by
      simp [dequeAppend]
    have hlen : (dequeAppend m b x).length
        = (b.length + 1) - (b.length + 1 - m) := by
      rw [hd]; simp
    have hle : (dequeAppend m b x).length ≤ m := by omega
    rw [List.foldl_cons, ih (dequeAppend m b x) hle, hlen, hd,
      ← List.drop_append_of_le_length (by simp), List.drop_drop]
    rw [show b ++ [x] ++ rest = b ++ x :: rest by simp]
    congr 1
    simp only [List.length_cons]
    omega

/-- Helper: folding deque appends from an empty buffer yields exactly the
most recent capacity-many appended elements, in order, and never exceeds
the capacity. -/
theorem dequeAppend_foldl_nil (m : Nat) (xs : List α) :
    List.foldl (dequeAppend m) [] xs = xs.drop (xs.length - m)
      ∧ (List.foldl (dequeAppend m) [] xs).length ≤ m := by
  have h := dequeAppend_foldl m xs [] (by simp)
  simp only [List.nil_append, List.length_nil, Nat.zero_add] at h
  refine ⟨h, ?_⟩
  rw [h, List.length_drop]
  omega

/-- C8 (amended): each history buffer is bounded by its own fixed capacity
— 15 per-hand positions (unified tracking), 20 two-hand distances, 30
gesture history, 50 motion history — with the oldest entries evicted on
overflow, so after any sequence of appends the buffer holds exactly the
most recent capacity-many insertions in order and its length never exceeds
its capacity. -/
theorem history_buffers_bounded (xs : List Pos) :
    (List.foldl (dequeAppend handPositionMaxlen) [] xs
        = xs.drop (xs.length - handPositionMaxlen)
      ∧ (List.foldl (dequeAppend handPositionMaxlen) [] xs).length
        ≤ handPositionMaxlen)
    ∧ (List.foldl (dequeAppend twoHandDistanceMaxlen) [] xs
        = xs.drop (xs.length - twoHandDistanceMaxlen)
      ∧ (List.foldl (dequeAppend twoHandDistanceMaxlen) [] xs).length
        ≤ twoHandDistanceMaxlen)
    ∧ (List.foldl (dequeAppend gestureHistoryMaxlen) [] xs
        = xs.drop (xs.length - gestureHistoryMaxlen)
      ∧ (List.foldl (dequeAppend gestureHistoryMaxlen) [] xs).length
        ≤ gestureHistoryMaxlen)
    ∧ (List.foldl (dequeAppend motionHistoryMaxlen) [] xs
        = xs.drop (xs.length - motionHistoryMaxlen)
      ∧ (List.foldl (dequeAppend motionHistoryMaxlen) [] xs).length
        ≤ motionHistoryMaxlen) :=
  ⟨dequeAppend_foldl_nil _ xs, dequeAppend_foldl_nil _ xs,
   dequeAppend_foldl_nil _ xs, dequeAppend_foldl_nil _ xs⟩

/-- C8 counterexample: the motion history deque's capacity is 50, not
between 15 and 20, and after 21 appends its length is 21, exceeding the
claimed universal bound of 20. -/
theorem motion_history_exceeds_claimed_bound :
    motionHistoryMaxlen = 50
      ∧ ¬(motionHistoryMaxlen ≤ 20)
      ∧ (List.foldl (dequeAppend motionHistoryMaxlen) ([] : List Pos)
          (posSeq 21)).length = 21 := by
  decide

/-! ## C9: swipe detection -/

/-- C9 (amended): whenever `_detect_swipe` reports a swipe, the buffer has
at least 8 samples, the elapsed time is at least 0.1 s, the squared speed
is at least the 0.3-threshold, the horizontal displacement strictly
dominates 1.5 times the vertical one, and the sign of a strictly
more-than-0.1 horizontal displacement selects swipe_right versus
swipe_left; only those two labels are ever produced — the vertical axis has
no symmetric handling. -/
theorem detectSwipe_horizontal_only (hist : List Pos) (g : String)
    (h : detectSwipe hist = some g) :
    (g = "swipe_right" ∨ g = "swipe_left")
      ∧ 8 ≤ hist.length
      ∧ 1/10 ≤ swipeDt hist
      ∧ (3/10 * swipeDt hist)^2 ≤ swipeDx hist ^ 2 + swipeDy hist ^ 2
      ∧ |swipeDy hist| * (3/2) < |swipeDx hist|
      ∧ (g = "swipe_right" → 1/10 < swipeDx hist)
      ∧ (g = "swipe_left" → swipeDx hist < -(1/10)) := by
  unfold detectSwipe at h
  split_ifs at h with h1 h2 h3 h4 h5 h6
  · injection h with hg
    subst hg
    exact ⟨Or.inl rfl, by omega, not_lt.mp h2, not_lt.mp h3, h4,
      fun _ => h5, fun hc => absurd hc (by decide)⟩
  · injection h with hg
    subst hg
    exact ⟨Or.inr rfl, by omega, not_lt.mp h2, not_lt.mp h3, h4,
      fun hc => absurd hc (by decide), fun _ => h6⟩

/-- C9 witness: the characterization applied to a concrete rightward swipe
history (8 samples, displacement 0.15 over 0.35 s). -/
theorem detectSwipe_horizontal_only_witness :
    detectSwipe rightSwipeHist = some "swipe_right"
      ∧ (("swipe_right" = "swipe_right" ∨ "swipe_right" = "swipe_left")
        ∧ 8 ≤ rightSwipeHist.length
        ∧ 1/10 ≤ swipeDt rightSwipeHist
        ∧ (3/10 * swipeDt rightSwipeHist)^2
            ≤ swipeDx rightSwipeHist ^ 2 + swipeDy rightSwipeHist ^ 2
        ∧ |swipeDy rightSwipeHist| * (3/2) < |swipeDx rightSwipeHist|
        ∧ ("swipe_right" = "swipe_right" → 1/10 < swipeDx rightSwipeHist)
        ∧ ("swipe_right" = "swipe_left" → swipeDx rightSwipeHist < -(1/10))) := by
  have he : detectSwipe rightSwipeHist = some "swipe_right" := by
    norm_num [detectSwipe, swipeDx, swipeDy, swipeDt, rightSwipeHist,
      List.getLastD, List.getLast?]
  exact ⟨he, detectSwipe_horizontal_only rightSwipeHist "swipe_right" he⟩

/-- C9 counterexample: a concrete purely vertical motion that satisfies
every spec condition for a vertical swipe. The spec-worded symmetric rule
labels it swipe_down, while `detectSwipe` returns none — the code has no
vertical branch. -/
theorem vertical_swipe_not_detected :
    detectSwipe verticalSwipeHist = none
      ∧ specSwipeDetect verticalSwipeHist = some "swipe_down" := by
  constructor
  · norm_num [detectSwipe, swipeDx, swipeDy, swipeDt, verticalSwipeHist,
      List.getLastD, List.getLast?]
  · norm_num [specSwipeDetect, swipeDx, swipeDy, swipeDt, verticalSwipeHist,
      List.getLastD, List.getLast?]

/-! ## C3: degenerate calibration input -/

/-- C3 (amended): with degenerate camera-side input — wrong camera corner
count, or coincident/collinear camera corners — calibrate returns a
structured failure and mutates nothing: the whole engine state, including
the persisted file, is unchanged. (The projector side is not validated:
fewer than four projector corners produce a failure result that clears the
stored homography; see the counterexample.) -/
theorem calibrate_camera_degenerate_no_mutation (solver : Solver)
    (s : Engine) (cam : List Pt) (proj : Option (List Pt)) (now : ℤ)
    (h : cam.length ≠ 4 ∨ validatePoints cam = false) :
    (calibrate solver s cam proj now).1.success = false
      ∧ (calibrate solver s cam proj now).2 = s := by
  rcases h with h | h
  · simp [calibrate, h]
  · unfold calibrate
    by_cases hlen : cam.length ≠ 4
    · simp [hlen]
    · simp [hlen, h]

/-- C3 witness: two coincident camera corners make `_validate_points`
fail, so the call reports failure and leaves a fresh engine untouched. -/
theorem calibrate_camera_degenerate_no_mutation_witness :
    (coincidentCorners.length ≠ 4
        ∨ validatePoints coincidentCorners = false)
      ∧ (calibrate solverId (freshEngine none) coincidentCorners none 5).1.success
          = false
      ∧ (calibrate solverId (freshEngine none) coincidentCorners none 5).2
          = freshEngine none := by
  have hv : validatePoints coincidentCorners = false := by
    norm_num [validatePoints, ptAllclose, coincidentCorners]
  have h := calibrate_camera_degenerate_no_mutation solverId
    (freshEngine none) coincidentCorners none 5 (Or.inr hv)
  exact ⟨Or.inr hv, h.1, h.2⟩

/-- C3 counterexample: a wrong corner count on the projector side (three
corners). The call does return a structured failure, but it mutates state:
the previously stored homography (the identity, from a successful
unit-square calibration) is overwritten with null, because the source
assigns `self.homography_matrix` before testing the computation result. -/
theorem degenerate_projector_call_mutates_state :
    calibClobber.1.success = false
      ∧ engAfterGood.homography = some idM3
      ∧ calibClobber.2.homography = none := by
  norm_num [calibClobber, engAfterGood, calibrate, freshEngine,
    loadCalibration, validatePoints, ptAllclose, computeHomography, buildA,
    reshape3, scaleM3, unitSquare, threeCorners, solverId, epsTiny,
    freshSmoother, idM3]

/-! ## C4: calibration state invariant -/

/-- Helper: every single operation preserves the one-directional invariant
that a stored homography implies the calibrated flag. -/
theorem homography_calibrated_step (solver : Solver) (s : Engine)
    (op : CalibOp) (h : s.homography ≠ none → s.calibrated = true) :
    (calibStep solver s op).homography ≠ none
      → (calibStep solver s op).calibrated = true := by
  cases op with
  | calib c p n =>
    unfold calibStep calibrate
    by_cases h1 : c.length ≠ 4
    · simpa [h1] using h
    · by_cases h2 : validatePoints c = false
      · simpa [h1, h2] using h
      · cases hch : computeHomography solver c (p.getD unitSquare) with
        | none => simp [h1, h2, hch]
        | some H => simp [h1, h2, hch]
  | clear => simp [calibStep, clearCalibration]
  | load =>
    unfold calibStep loadCalibration
    cases hf : s.savedFile with
    | none => exact h
    | some d =>
      by_cases hc : d.calibrated = true ∧ d.matrix ≠ none
      · simp [hc]
      · simpa [hc] using h

/-- Helper: the invariant is preserved along any operation sequence. -/
theorem runOps_aux (solver : Solver) (ops : List CalibOp) :
    ∀ s : Engine, (s.homography ≠ none → s.calibrated = true) →
      (runOps solver s ops).homography ≠ none
        → (runOps solver s ops).calibrated = true := by
  induction ops with
  | nil => intro s hs; exact hs
  | cons op rest ih =>
    intro s hs
    exact ih (calibStep solver s op)
      (homography_calibrated_step solver s op hs)

/-- Helper: a freshly constructed engine (which loads any persisted file)
satisfies the invariant. -/
theorem freshEngine_inv (file : Option SavedCalib) :
    (freshEngine file).homography ≠ none
      → (freshEngine file).calibrated = true :=
  homography_calibrated_step solverId
    { calibrated := false, homography := none, cameraCorners := none,
      projectorCorners := none, createdAt := none, savedFile := file,
      smoother := freshSmoother } CalibOp.load (by intro hc; simp at hc)

/-- C4 (amended): after construction (with any persisted file) and any
sequence of calibrate, clear_calibration and load operations, a non-null
homography matrix implies the calibrated flag. The claimed converse fails:
a calibrate call whose homography computation fails leaves calibrated true
with a null matrix (see the counterexample); moreover a computed matrix
whose bottom-right entry is numerically ~0 is stored unnormalized as a
success rather than treated as failure (`computeHomography`). -/
theorem runOps_homography_implies_calibrated (solver : Solver)
    (file : Option SavedCalib) (ops : List CalibOp)
    (h : (runOps solver (freshEngine file) ops).homography ≠ none) :
    (runOps solver (freshEngine file) ops).calibrated = true :=
  runOps_aux solver ops (freshEngine file) (freshEngine_inv file) h

/-- C4 witness: an engine loaded from a calibrated file has a stored
matrix, and the theorem yields its calibrated flag. -/
theorem runOps_homography_implies_calibrated_witness :
    ((runOps solverId (freshEngine (some calibFile)) []).homography ≠ none)
      ∧ (runOps solverId (freshEngine (some calibFile)) []).calibrated
        = true := by
  have h : (runOps solverId (freshEngine (some calibFile)) []).homography
      ≠ none := by
    norm_num [runOps, freshEngine, loadCalibration, calibFile, idM3]
    simp
  exact ⟨h, runOps_homography_implies_calibrated solverId (some calibFile) [] h⟩

/-- C4 counterexample: a successful unit-square calibration followed by a
calibrate call with only three projector corners reaches a state with
calibrated = true and homography = null, violating the claimed iff. -/
theorem calibrated_true_homography_none_reachable :
    (runOps solverId (freshEngine none)
        [CalibOp.calib unitSquare none 0,
         CalibOp.calib unitSquare (some threeCorners) 1]).calibrated = true
      ∧ (runOps solverId (freshEngine none)
          [CalibOp.calib unitSquare none 0,
           CalibOp.calib unitSquare (some threeCorners) 1]).homography
        = none := by
  norm_num [runOps, calibStep, calibrate, freshEngine, loadCalibration,
    validatePoints, ptAllclose, computeHomography, buildA, reshape3,
    scaleM3, unitSquare, threeCorners, solverId, epsTiny, freshSmoother]

/-! ## C6: point transform -/

/-- Helper: clamping lands in the unit interval. -/
theorem clamp01_mem (v : ℚ) : 0 ≤ clamp01 v ∧ clamp01 v ≤ 1 :=
  ⟨le_max_left 0 _, max_le (by norm_num) (min_le_left 1 v)⟩

/-- Helper: fed an in-unit-square point, the smoother returns an
in-unit-square point and preserves the memory invariant. -/
theorem smooth_mem_unit (s : SmootherState) (x y : ℚ)
    (hs : SmInv s) (hx0 : 0 ≤ x) (hx1 : x ≤ 1) (hy0 : 0 ≤ y) (hy1 : y ≤ 1) :
    (0 ≤ (PositionSmoother.smooth s x y).1.1
      ∧ (PositionSmoother.smooth s x y).1.1 ≤ 1
      ∧ 0 ≤ (PositionSmoother.smooth s x y).1.2
      ∧ (PositionSmoother.smooth s x y).1.2 ≤ 1)
    ∧ SmInv (PositionSmoother.smooth s x y).2 := by
  unfold PositionSmoother.smooth
  cases hls : s.lastSmoothed with
  | none =>
    refine ⟨⟨hx0, hx1, hy0, hy1⟩, fun p hp => ?_⟩
    simp only at hp
    obtain rfl : (x, y) = p := by simpa using hp
    exact ⟨hx0, hx1, hy0, hy1⟩
  | some q =>
    obtain ⟨qx, qy⟩ := q
    obtain ⟨hq0, hq1, hq2, hq3⟩ := hs (qx, qy) hls
    simp only at hq0 hq1 hq2 hq3
    dsimp only
    split_ifs with hout
    · refine ⟨⟨hq0, hq1, hq2, hq3⟩, fun p hp => ?_⟩
      obtain rfl : (qx, qy) = p := by simpa using hp
      exact ⟨hq0, hq1, hq2, hq3⟩
    · rw [smootherAlpha]
      refine ⟨⟨by linarith, by linarith, by linarith, by linarith⟩,
        fun p hp => ?_⟩
      obtain rfl : (3/10 * x + (1 - 3/10) * qx,
          3/10 * y + (1 - 3/10) * qy) = p := by
        simpa using hp
      refine ⟨by linarith, by linarith, by linarith, by linarith⟩

/-- C6: for every engine state whose smoother memory is in the unit square
(true initially and maintained by every call), transform_point returns
none if and only if the engine is uncalibrated (flag down or matrix
absent) or the homogeneous divisor is numerically ~0; every point it does
return — with or without smoothing — has both coordinates in [0, 1]; and
the smoother memory stays in the unit square. -/
theorem transformPoint_spec (s : Engine) (x y : ℚ) (b : Bool)
    (hs : SmInv s.smoother) :
    ((transformPoint s x y b).1 = none
        ↔ uncalibrated s ∨ divisorNearZero s x y)
      ∧ (∀ p : ℚ × ℚ, (transformPoint s x y b).1 = some p →
          0 ≤ p.1 ∧ p.1 ≤ 1 ∧ 0 ≤ p.2 ∧ p.2 ≤ 1)
      ∧ SmInv (transformPoint s x y b).2.smoother := by
  by_cases hc : s.calibrated = false
  · have hred : transformPoint s x y b = (none, s) := by
      unfold transformPoint; rw [if_pos hc]
    rw [hred]
    simp [uncalibrated, hc, hs]
  · have hc2 : s.calibrated = true := by revert hc; cases s.calibrated <;> simp
    cases hH : s.homography with
    | none =>
      have hred : transformPoint s x y b = (none, s) := by
        unfold transformPoint; rw [if_neg hc, hH]
      rw [hred]
      simp [uncalibrated, divisorNearZero, hc2, hH, hs]
    | some H =>
      have hred : transformPoint s x y b =
          (if |H.m20 * x + H.m21 * y + H.m22| < epsTiny then (none, s)
           else if b then
             (some (PositionSmoother.smooth s.smoother
                 (clamp01 ((H.m00 * x + H.m01 * y + H.m02)
                   / (H.m20 * x + H.m21 * y + H.m22)))
                 (clamp01 ((H.m10 * x + H.m11 * y + H.m12)
                   / (H.m20 * x + H.m21 * y + H.m22)))).1,
              { s with smoother := (PositionSmoother.smooth s.smoother
                 (clamp01 ((H.m00 * x + H.m01 * y + H.m02)
                   / (H.m20 * x + H.m21 * y + H.m22)))
                 (clamp01 ((H.m10 * x + H.m11 * y + H.m12)
                   / (H.m20 * x + H.m21 * y + H.m22)))).2 })
           else
             (some (clamp01 ((H.m00 * x + H.m01 * y + H.m02)
                   / (H.m20 * x + H.m21 * y + H.m22)),
                 clamp01 ((H.m10 * x + H.m11 * y + H.m12)
                   / (H.m20 * x + H.m21 * y + H.m22))), s)) := by
        unfold transformPoint
        rw [if_neg hc, hH]
      rw [hred]
      by_cases hw : |H.m20 * x + H.m21 * y + H.m22| < epsTiny
      · rw [if_pos hw]
        simp [uncalibrated, divisorNearZero, hc2, hH, hw, hs]
      · rw [if_neg hw]
        cases b with
        | false =>
          rw [if_neg (by simp : ¬(false = true))]
          refine ⟨by simp [uncalibrated, divisorNearZero, hc2, hH, hw],
            fun p hp => ?_, hs⟩
          obtain rfl : (clamp01 ((H.m00 * x + H.m01 * y + H.m02)
                / (H.m20 * x + H.m21 * y + H.m22)),
              clamp01 ((H.m10 * x + H.m11 * y + H.m12)
                / (H.m20 * x + H.m21 * y + H.m22))) = p := Option.some.inj hp
          exact ⟨(clamp01_mem _).1, (clamp01_mem _).2,
            (clamp01_mem _).1, (clamp01_mem _).2⟩
        | true =>
          rw [if_pos rfl]
          have hmem := smooth_mem_unit s.smoother
            (clamp01 ((H.m00 * x + H.m01 * y + H.m02)
              / (H.m20 * x + H.m21 * y + H.m22)))
            (clamp01 ((H.m10 * x + H.m11 * y + H.m12)
              / (H.m20 * x + H.m21 * y + H.m22)))
            hs (clamp01_mem _).1 (clamp01_mem _).2
            (clamp01_mem _).1 (clamp01_mem _).2
          refine ⟨by simp [uncalibrated, divisorNearZero, hc2, hH, hw],
            fun p hp => ?_, hmem.2⟩
          obtain rfl := Option.some.inj hp
          exact hmem.1

/-- C6 witness: the characterization applied to a calibrated engine with
the identity homography and a fresh smoother, at (1/2, 1/2) with smoothing
on. -/
theorem transformPoint_spec_witness :
    SmInv calibEngine.smoother
      ∧ (((transformPoint calibEngine (1/2) (1/2) true).1 = none
          ↔ uncalibrated calibEngine
            ∨ divisorNearZero calibEngine (1/2) (1/2))
        ∧ (∀ p : ℚ × ℚ,
            (transformPoint calibEngine (1/2) (1/2) true).1 = some p →
              0 ≤ p.1 ∧ p.1 ≤ 1 ∧ 0 ≤ p.2 ∧ p.2 ≤ 1)
        ∧ SmInv (transformPoint calibEngine (1/2) (1/2) true).2.smoother) := by
  have hinv : SmInv calibEngine.smoother := fun p hp => by
    simp [calibEngine, freshSmoother] at hp
  exact ⟨hinv, transformPoint_spec calibEngine (1/2) (1/2) true hinv⟩


/-! ## C2, C7 and C10: the gesture resolver -/

/-- Helper: a successful first-match scan returns an element of the list
that is not skipped and whose check holds. -/
theorem firstMatchSkip_eq_some {skip : List String} {check : String → Bool} :
    ∀ {l : List String} {g : String}, firstMatchSkip skip check l = some g →
      g ∈ l ∧ skip.contains g = false ∧ check g = true := by
  intro l
  induction l with
  | nil => intro g h; simp [firstMatchSkip] at h
  | cons a rest ih =>
    intro g h
    unfold firstMatchSkip at h
    split_ifs at h with hskip hcheck
    · obtain ⟨h1, h2, h3⟩ := ih h
      exact ⟨List.mem_cons_of_mem a h1, h2, h3⟩
    · obtain rfl : a = g := Option.some.inj h
      refine ⟨List.mem_cons_self a rest, ?_, hcheck⟩
      revert hskip
      cases skip.contains a <;> simp
    · obtain ⟨h1, h2, h3⟩ := ih h
      exact ⟨List.mem_cons_of_mem a h1, h2, h3⟩

/-- Helper: the pinch check is exactly the squared-distance threshold. -/
theorem gestureCheck_pinch (h : Hand) (fs : FingerStates) (d2 yaw : ℚ) :
    gestureCheck "pinch" h fs d2 yaw = decide (d2 < 1/400) := rfl

/-- Helper: the open_palm and five checks are the same predicate (both
are `extended_count == 5` in `_check_gesture`). -/
theorem gestureCheck_open_palm_eq_five (h : Hand) (fs : FingerStates)
    (d2 yaw : ℚ) :
    gestureCheck "open_palm" h fs d2 yaw = gestureCheck "five" h fs d2 yaw :=
  rfl

/-- Helper: on a pinching frame the tier-2 loop stops at its first entry,
"pinch". -/
theorem highLoop_pinch (h : Hand) (fs : FingerStates) (d2 yaw : ℚ)
    (hd : d2 < 1/400) :
    firstMatchSkip ["double_tap"] (fun g => gestureCheck g h fs d2 yaw)
      highList = some "pinch" := by
  have hcheck : gestureCheck "pinch" h fs d2 yaw = true := by
    rw [gestureCheck_pinch]
    exact decide_eq_true hd
  simp only [highList, firstMatchSkip]
  rw [if_neg (show ¬((["double_tap"] : List String).contains "pinch" = true)
    by decide)]
  rw [if_pos hcheck]

/-- Helper: the double-tap step detects either nothing or "double_tap". -/
theorem doubleTapStep_fst (a : Option ℤ) (b : Option ℚ) (d2 : ℚ) (t : ℤ) :
    (doubleTapStep a b d2 t).1 = none
      ∨ (doubleTapStep a b d2 t).1 = some ("double_tap", 17/20) := by
  unfold doubleTapStep
  by_cases hd : d2 < 1/400
  · rw [if_pos hd]
    cases a with
    | none => simp
    | some lt => dsimp only; split_ifs <;> simp
  · rw [if_neg hd]; simp

/-- Helper: the zoom step detects nothing, "zoom_in" or "zoom_out". -/
theorem zoomStep_fst (b : Option ℚ) (d2 : ℚ) :
    (zoomStep b d2).1 = none
      ∨ (zoomStep b d2).1 = some ("zoom_in", 4/5)
      ∨ (zoomStep b d2).1 = some ("zoom_out", 4/5) := by
  unfold zoomStep
  by_cases hd : d2 < 1/400
  · rw [if_pos hd]
    cases b with
    | none => simp
    | some lpd => dsimp only; split_ifs <;> simp
  · rw [if_neg hd]; simp

/-- Helper: without a pinching frame the zoom step detects nothing. -/
theorem zoomStep_none_of_far (b : Option ℚ) (d2 : ℚ) (hd : ¬(d2 < 1/400)) :
    (zoomStep b d2).1 = none := by
  unfold zoomStep; rw [if_neg hd]

/-- Helper: the grab step detects nothing, "grab" or "release". -/
theorem grabStep_fst (p : Option Nat) (c : Nat) :
    (grabStep p c).1 = none ∨ (grabStep p c).1 = some ("grab", 4/5)
      ∨ (grabStep p c).1 = some ("release", 4/5) := by
  unfold grabStep
  cases p with
  | none => simp
  | some q => dsimp only; split_ifs <;> simp

/-- Helper: tier 2 detects nothing, "double_tap", or the first match of
the high-priority loop. -/
theorem tier2_fst_cases (st : GRState) (h : Hand) (fs : FingerStates)
    (d2 : ℚ) (t : ℤ) (yaw : ℚ) :
    (tier2 st h fs d2 t yaw).1 = none
      ∨ (tier2 st h fs d2 t yaw).1 = some ("double_tap", 17/20)
      ∨ ∃ g, firstMatchSkip ["double_tap"]
            (fun n => gestureCheck n h fs d2 yaw) highList = some g
          ∧ (tier2 st h fs d2 t yaw).1 = some (g, 9/10) := by
  have hdt := doubleTapStep_fst st.lastPinchTime st.lastPinchDist2 d2 t
  unfold tier2
  rcases he : doubleTapStep st.lastPinchTime st.lastPinchDist2 d2 t
    with ⟨o, np, nd⟩
  rw [he] at hdt
  dsimp only at hdt ⊢
  cases o with
  | some r =>
    rcases hdt with hdt | hdt
    · exact absurd hdt (by simp)
    · exact Or.inr (Or.inl (by rw [Option.some.inj hdt]))
  | none =>
    rcases hfm : firstMatchSkip ["double_tap"]
        (fun n => gestureCheck n h fs d2 yaw) highList with _ | g
    · exact Or.inl rfl
    · exact Or.inr (Or.inr ⟨g, rfl, rfl⟩)

/-- Helper: when tier 2 detects nothing the frame is not pinching — the
"pinch" entry of the high-priority loop would otherwise have matched. -/
theorem tier2_none_no_pinch (st : GRState) (h : Hand) (fs : FingerStates)
    (d2 : ℚ) (t : ℤ) (yaw : ℚ)
    (he : (tier2 st h fs d2 t yaw).1 = none) : ¬(d2 < 1/400) := by
  intro hd
  have hp := highLoop_pinch h fs d2 yaw hd
  unfold tier2 at he
  rcases hdt : doubleTapStep st.lastPinchTime st.lastPinchDist2 d2 t
    with ⟨o, np, nd⟩
  rw [hdt] at he
  dsimp only at he
  cases o with
  | some r => simp at he
  | none => rw [hp] at he; simp at he

/-- Helper: tier 3 detects nothing, a zoom label (only on a pinching
frame), grab/release, or the first match of the medium-priority loop. -/
theorem tier3_fst_cases (st : GRState) (h : Hand) (fs : FingerStates)
    (d2 : ℚ) (yaw : ℚ) :
    (tier3 st h fs d2 yaw).1 = none
      ∨ (d2 < 1/400 ∧ (tier3 st h fs d2 yaw).1 = some ("zoom_in", 4/5))
      ∨ (d2 < 1/400 ∧ (tier3 st h fs d2 yaw).1 = some ("zoom_out", 4/5))
      ∨ (tier3 st h fs d2 yaw).1 = some ("grab", 4/5)
      ∨ (tier3 st h fs d2 yaw).1 = some ("release", 4/5)
      ∨ ∃ g, firstMatchSkip ["zoom_in", "zoom_out", "grab", "release"]
            (fun n => gestureCheck n h fs d2 yaw) mediumList = some g
          ∧ (tier3 st h fs d2 yaw).1 = some (g, 17/20) := by
  have hz := zoomStep_fst st.lastPinchDist2 d2
  unfold tier3
  rcases hze : zoomStep st.lastPinchDist2 d2 with ⟨zo, zd⟩
  rw [hze] at hz
  dsimp only at hz ⊢
  cases zo with
  | some r =>
    have hd : d2 < 1/400 := by
      by_contra hdc
      have hn := zoomStep_none_of_far st.lastPinchDist2 d2 hdc
      rw [hze] at hn
      simp at hn
    rcases hz with hz | hz | hz
    · exact absurd hz (by simp)
    · exact Or.inr (Or.inl ⟨hd, by rw [Option.some.inj hz]⟩)
    · exact Or.inr (Or.inr (Or.inl ⟨hd, by rw [Option.some.inj hz]⟩))
  | none =>
    have hg := grabStep_fst st.prevFingerCount (extendedCount fs)
    rcases hge : grabStep st.prevFingerCount (extendedCount fs) with ⟨go, gn⟩
    rw [hge] at hg
    dsimp only at hg ⊢
    cases go with
    | some r =>
      rcases hg with hg | hg | hg
      · exact absurd hg (by simp)
      · exact Or.inr (Or.inr (Or.inr (Or.inl (by rw [Option.some.inj hg]))))
      · exact Or.inr (Or.inr (Or.inr (Or.inr (Or.inl
          (by rw [Option.some.inj hg])))))
    | none =>
      rcases hfm : firstMatchSkip ["zoom_in", "zoom_out", "grab", "release"]
          (fun n => gestureCheck n h fs d2 yaw) mediumList with _ | g
      · exact Or.inl rfl
      · exact Or.inr (Or.inr (Or.inr (Or.inr (Or.inr ⟨g, rfl, rfl⟩))))

/-- Helper: tier 4 detects "wave" or the first match of the low-priority
loop. -/
theorem tier4_cases (st : GRState) (h : Hand) (fs : FingerStates)
    (d2 : ℚ) (yaw : ℚ) (r : String × ℚ)
    (he : tier4 st h fs d2 yaw = some r) :
    r = ("wave", 17/20)
      ∨ ∃ g, firstMatchSkip [] (fun n => gestureCheck n h fs d2 yaw)
            lowList = some g ∧ r = (g, 17/20) := by
  unfold tier4 at he
  split_ifs at he with hw
  · exact Or.inl (Option.some.inj he).symm
  · rcases hfm : firstMatchSkip [] (fun n => gestureCheck n h fs d2 yaw)
        lowList with _ | g
    · rw [hfm] at he; simp at he
    · rw [hfm] at he
      exact Or.inr ⟨g, rfl, (Option.some.inj he).symm⟩

/-- Helper: the low-priority loop never returns "five": its check equals
the open_palm check, which is scanned earlier and short-circuits. -/
theorem lowLoop_ne_five (h : Hand) (fs : FingerStates) (d2 yaw : ℚ)
    (g : String)
    (hfm : firstMatchSkip [] (fun n => gestureCheck n h fs d2 yaw) lowList
      = some g) : g ≠ "five" := by
  rintro rfl
  obtain ⟨hmem, hskip, hcheck⟩ := firstMatchSkip_eq_some hfm
  by_cases hopen : gestureCheck "open_palm" h fs d2 yaw = true
  · simp only [lowList, firstMatchSkip, List.contains, List.elem_nil,
      Bool.false_eq_true, if_false] at hfm
    rw [hopen] at hfm
    split_ifs at hfm <;> simp_all
  · exact hopen (gestureCheck_open_palm_eq_five h fs d2 yaw ▸ hcheck)

/-- Helper: the classified label is the tier resolution's label, with
"unknown" as the fallback. -/
theorem classify_gtype_eq (st : GRState) (h : Hand) (t : ℤ) (mp : String)
    (yaw : ℚ) :
    (classify st h t mp yaw).gtype
      = (((resolveStep (appendHistories st h t) h (detectFingerStates h)
            (thumbIndexDist2 h) t mp yaw).1).map Prod.fst).getD "unknown" := rfl

/-- Helper: the hold-time bookkeeping at the end of `_analyze_gesture`
does not touch the pinch-candidate memory. -/
theorem classify_lastPinchTime_eq (st : GRState) (h : Hand) (t : ℤ)
    (mp : String) (yaw : ℚ) :
    (classify st h t mp yaw).state.lastPinchTime
      = (resolveStep (appendHistories st h t) h (detectFingerStates h)
          (thumbIndexDist2 h) t mp yaw).2.lastPinchTime := by
  unfold classify
  dsimp only
  split_ifs <;> rfl

/-- Helper: high-priority labels are static result labels. -/
theorem mem_high_static (g : String) (hg : g ∈ highList) :
    g ∈ staticResultLabels := by
  simp only [highList, List.mem_cons, List.not_mem_nil, or_false] at hg
  rcases hg with rfl | rfl | rfl | rfl <;> decide

/-- Helper: a medium-priority label that is not one of the skipped names
is a motion pattern (a swipe) or a static result label. -/
theorem mem_medium_static (g : String) (hg : g ∈ mediumList)
    (hskip : (["zoom_in", "zoom_out", "grab", "release"] : List String).contains g
      = false) :
    g ∈ motionPatternOutcomes ∨ g ∈ staticResultLabels := by
  simp only [mediumList, List.mem_cons, List.not_mem_nil, or_false] at hg
  rcases hg with rfl|rfl|rfl|rfl|rfl|rfl|rfl|rfl|rfl|rfl|rfl|rfl
  all_goals first
    | exact Or.inl (by decide)
    | exact Or.inr (by decide)
    | exact absurd hskip (by decide)

/-- Helper: a low-priority label other than "five" is a static result
label. -/
theorem mem_low_static (g : String) (hg : g ∈ lowList) (hne : g ≠ "five") :
    g ∈ staticResultLabels := by
  simp only [lowList, List.mem_cons, List.not_mem_nil, or_false] at hg
  rcases hg with rfl|rfl|rfl|rfl|rfl|rfl|rfl|rfl|rfl|rfl|rfl
  all_goals first
    | exact absurd rfl hne
    | decide

/-- Helper: every label the resolver returns is either the tier-1 motion
pattern or one of the static result labels — in particular never "five",
"zoom_in" or "zoom_out". -/
theorem classify_gtype_mem (st : GRState) (h : Hand) (t : ℤ) (mp : String)
    (yaw : ℚ) (hmp : mp ∈ motionPatternOutcomes) :
    (classify st h t mp yaw).gtype ∈ motionPatternOutcomes
      ∨ (classify st h t mp yaw).gtype ∈ staticResultLabels := by
  rw [classify_gtype_eq]
  unfold resolveStep
  by_cases hmpn : mp ≠ "none"
  · rw [if_pos hmpn]
    exact Or.inl hmp
  · rw [if_neg hmpn]
    rcases ht2 : tier2 (appendHistories st h t) h (detectFingerStates h)
        (thumbIndexDist2 h) t yaw with ⟨o2, st1⟩
    cases o2 with
    | some r =>
      dsimp only
      have h2 : (tier2 (appendHistories st h t) h (detectFingerStates h)
          (thumbIndexDist2 h) t yaw).1 = some r := by rw [ht2]
      rcases tier2_fst_cases (appendHistories st h t) h (detectFingerStates h)
          (thumbIndexDist2 h) t yaw with hc | hc | ⟨g, hfm, hc⟩
      · rw [h2] at hc; exact absurd hc (by simp)
      · rw [h2] at hc
        obtain rfl := Option.some.inj hc
        exact Or.inr (by decide)
      · rw [h2] at hc
        obtain rfl := Option.some.inj hc
        exact Or.inr (mem_high_static g (firstMatchSkip_eq_some hfm).1)
    | none =>
      dsimp only
      have hnp : ¬(thumbIndexDist2 h < 1/400) :=
        tier2_none_no_pinch (appendHistories st h t) h (detectFingerStates h)
          (thumbIndexDist2 h) t yaw (by rw [ht2])
      rcases ht3 : tier3 st1 h (detectFingerStates h) (thumbIndexDist2 h) yaw
        with ⟨o3, st2⟩
      cases o3 with
      | some r =>
        dsimp only
        have h3 : (tier3 st1 h (detectFingerStates h) (thumbIndexDist2 h)
            yaw).1 = some r := by rw [ht3]
        rcases tier3_fst_cases st1 h (detectFingerStates h)
            (thumbIndexDist2 h) yaw with
          hc | ⟨hd, hc⟩ | ⟨hd, hc⟩ | hc | hc | ⟨g, hfm, hc⟩
        · rw [h3] at hc; exact absurd hc (by simp)
        · exact absurd hd hnp
        · exact absurd hd hnp
        · rw [h3] at hc
          obtain rfl := Option.some.inj hc
          exact Or.inr (by decide)
        · rw [h3] at hc
          obtain rfl := Option.some.inj hc
          exact Or.inr (by decide)
        · rw [h3] at hc
          obtain rfl := Option.some.inj hc
          have hm := firstMatchSkip_eq_some hfm
          exact mem_medium_static g hm.1 hm.2.1
      | none =>
        dsimp only
        rcases ht4 : tier4 st2 h (detectFingerStates h) (thumbIndexDist2 h) yaw
          with _ | r
        · dsimp only
          exact Or.inr (by decide)
        · dsimp only
          rcases tier4_cases st2 h (detectFingerStates h) (thumbIndexDist2 h)
              yaw r ht4 with hc | ⟨g, hfm, hc⟩
          · subst hc
            exact Or.inr (by decide)
          · subst hc
            exact Or.inr (mem_low_static g (firstMatchSkip_eq_some hfm).1
              (lowLoop_ne_five h (detectFingerStates h) (thumbIndexDist2 h)
                yaw g hfm))

/-- C10: the single-hand gesture resolver never returns the label "five":
the low-priority tier tests open_palm before five and both predicates are
the same, so resolution always short-circuits before five can match. -/
theorem resolver_never_five (st : GRState) (h : Hand) (t : ℤ) (mp : String)
    (yaw : ℚ) (hmp : mp ∈ motionPatternOutcomes) :
    (classify st h t mp yaw).gtype ≠ "five" := by
  intro hfive
  rcases classify_gtype_mem st h t mp yaw hmp with hm | hm <;>
    rw [hfive] at hm <;> revert hm <;> decide

/-- C10 witness: the theorem applied to a concrete pinching hand with the
"none" motion pattern. -/
theorem resolver_never_five_witness :
    ("none" ∈ motionPatternOutcomes)
      ∧ (classify initGRState pinchHand 0 "none" 0).gtype ≠ "five" :=
  ⟨by decide, resolver_never_five initGRState pinchHand 0 "none" 0 (by decide)⟩

/-- Supporting fact for C2: the resolver can never return "zoom_in" or
"zoom_out" on any input — tier 3's zoom rule requires a pinching frame,
but every pinching frame is consumed by tier 2's "pinch" check first. -/
theorem zoom_labels_unreachable (st : GRState) (h : Hand) (t : ℤ)
    (mp : String) (yaw : ℚ) (hmp : mp ∈ motionPatternOutcomes) :
    (classify st h t mp yaw).gtype ≠ "zoom_in"
      ∧ (classify st h t mp yaw).gtype ≠ "zoom_out" := by
  constructor <;> intro hz <;>
    rcases classify_gtype_mem st h t mp yaw hmp with hm | hm <;>
    rw [hz] at hm <;> revert hm <;> decide

/-- C2: the spec's zoom-in scenario evaluated on the code. A pinching
frame (thumb-index distance 0.04) whose distance has expanded 4x past the
remembered pinch distance 0.01 — the spec classifies it zoom_in — is
classified "pinch" by the code: the tier-2 pinch check shadows the tier-3
zoom rule, which is dead code. -/
theorem zoom_spec_input_classifies_pinch :
    (classify zoomSpecState zoomSpecHand 1000 "none" 0).gtype = "pinch"
      ∧ (classify zoomSpecState zoomSpecHand 1000 "none" 0).gtype
        ≠ "zoom_in" := by
  have h : (classify zoomSpecState zoomSpecHand 1000 "none" 0).gtype
      = "pinch" := by
    norm_num +decide [classify, appendHistories, resolveStep, tier2, tier3, tier4,
      doubleTapStep, zoomStep, grabStep, firstMatchSkip, gestureCheck,
      detectFingerStates, extendedCount, thumbIndexDist2, lmAt, zoomSpecHand,
      zoomSpecState, initGRState, detectWave, dequeAppend, highList,
      mediumList, lowList, bumpHold, gestureHistoryMaxlen,
      motionHistoryMaxlen]
  exact ⟨h, by rw [h]; decide⟩

/-- C7 (amended): on a pinching frame with a remembered pinch candidate
and no tier-1 motion pattern, a gap strictly between 200 and 800 ms
(exclusive at both ends) classifies "double_tap" and consumes the
candidate; any other gap classifies "pinch" and the frame becomes the new
candidate. -/
theorem double_tap_strict_window (st : GRState) (h : Hand) (t lt : ℤ)
    (yaw : ℚ) (hlt : st.lastPinchTime = some lt)
    (hd : thumbIndexDist2 h < 1/400) :
    ((200 < t - lt ∧ t - lt < 800) →
      (classify st h t "none" yaw).gtype = "double_tap"
        ∧ (classify st h t "none" yaw).state.lastPinchTime = none)
    ∧ (¬(200 < t - lt ∧ t - lt < 800) →
      (classify st h t "none" yaw).gtype = "pinch"
        ∧ (classify st h t "none" yaw).state.lastPinchTime = some t) := by
  have hst0 : (appendHistories st h t).lastPinchTime = some lt := hlt
  constructor
  · intro hw
    rw [classify_gtype_eq, classify_lastPinchTime_eq]
    unfold resolveStep
    rw [if_neg (show ¬("none" ≠ "none") by simp)]
    unfold tier2 doubleTapStep
    rw [if_pos hd, hst0]
    dsimp only
    rw [if_pos hw]
    dsimp only
    exact ⟨rfl, rfl⟩
  · intro hw
    rw [classify_gtype_eq, classify_lastPinchTime_eq]
    unfold resolveStep
    rw [if_neg (show ¬("none" ≠ "none") by simp)]
    unfold tier2 doubleTapStep
    rw [if_pos hd, hst0]
    dsimp only
    rw [if_neg hw]
    dsimp only
    rw [highLoop_pinch h (detectFingerStates h) (thumbIndexDist2 h) yaw hd]
    dsimp only
    exact ⟨rfl, rfl⟩

/-- C7 witness: pinches at t = 0 ms and t = 500 ms give "double_tap" on
the second frame and clear the candidate. -/
theorem double_tap_strict_window_witness :
    stWithCandidate.lastPinchTime = some 0
      ∧ thumbIndexDist2 pinchHand < 1/400
      ∧ (200 < (500:ℤ) - 0 ∧ (500:ℤ) - 0 < 800)
      ∧ ((classify stWithCandidate pinchHand 500 "none" 0).gtype
          = "double_tap"
        ∧ (classify stWithCandidate pinchHand 500 "none" 0).state.lastPinchTime
          = none) := by
  have hd : thumbIndexDist2 pinchHand < 1/400 := by
    simp +decide [thumbIndexDist2, pinchHand, lmAt]
  refine ⟨rfl, hd, by norm_num, ?_⟩
  exact (double_tap_strict_window stWithCandidate pinchHand 500 0 0 rfl hd).1
    (by norm_num)

/-- C7 counterexample: a pinch exactly 200 ms after the candidate — inside
the spec's [200, 800) window — is classified "pinch", not "double_tap",
because the code's window is strict on both ends; the candidate is
replaced. -/
theorem double_tap_boundary_200_not_detected :
    (classify stWithCandidate pinchHand 200 "none" 0).gtype = "pinch"
      ∧ (classify stWithCandidate pinchHand 200 "none" 0).gtype
        ≠ "double_tap"
      ∧ (classify stWithCandidate pinchHand 200 "none" 0).state.lastPinchTime
        = some 200 := by
  refine ⟨?_, ?_, ?_⟩ <;>
    norm_num +decide [classify, appendHistories, resolveStep, tier2, tier3, tier4,
      doubleTapStep, zoomStep, grabStep, firstMatchSkip, gestureCheck,
      detectFingerStates, extendedCount, thumbIndexDist2, lmAt, pinchHand,
      stWithCandidate, initGRState, detectWave, dequeAppend, highList,
      mediumList, lowList, bumpHold, gestureHistoryMaxlen,
      motionHistoryMaxlen]

end Dixi
